import Mathlib

/-!
Shallow embedding of the calculator's computational core (unit engine,
expression parser, tree-walking evaluator) and proofs about it.

The source snapshot contains two generations of the unit code:
the older `src-tauri/src/units.rs` (f32 magnitudes, used by
`src-tauri/src/evaluator.rs` via `use crate::units::UnitVal`) and the newer
`src-tauri/src/unit_value.rs` + `src-tauri/src/fields/units.rs`
(f64 magnitudes, used by `src-tauri/src/parser.rs` tests).  Where the two
generations differ the embedding keeps both variants, with the source file
of each noted in its doc comment.

Float magnitudes are embedded as exact rationals: every float literal in
the source is a decimal literal, and all magnitude arithmetic the claims
touch is field arithmetic, exact on rationals.  The handful of genuinely
transcendental float operations (`powf` with non-integer exponent, `sqrt`,
`sin`, `cos`, `tan`) are kept abstract as explicit function parameters
(`FloatOps`), so no theorem silently invents their values.
-/

namespace Calc

/-- Error type modelling `src-tauri/src/error.rs` (`ParseError`, `EvalError`,
`UnitError`) plus the `DefinitionNotFoundError` constructor referenced by
`src-tauri/src/unit_value.rs`. -/
inductive Error where
  | parseError (msg : String)
  | evalError (msg : String)
  | unitError (msg : String)
  | defNotFound (name : String)
deriving DecidableEq, Repr

/-- Abnormal outcomes of running a piece of Rust code: a returned `Err`
value, a panic (`unwrap` on `None`/`Err`, division by zero, ...), or
exhaustion of the artificial fuel that makes the Lean embedding total
(no Rust counterpart; the Rust recursion is unbounded). -/
inductive RErr where
  | err (e : Error)
  | panic (msg : String)
  | fuelOut
deriving DecidableEq, Repr

/-- Result of running fallible (and possibly panicking) code. -/
abbrev RunRes (α : Type) : Type := Except RErr α

/-- Single-quote character as a string, used to build the quoted names that
appear inside the source's error messages. -/
def sq (s : String) : String :=
  String.singleton (Char.ofNat 39) ++ s ++ String.singleton (Char.ofNat 39)

/-- Double-quote a string, modelling Rust's `{:?}` formatting of a `String`
(none of the strings the code quotes need escaping). -/
def dq (s : String) : String :=
  String.singleton (Char.ofNat 34) ++ s ++ String.singleton (Char.ofNat 34)

/-- Truncation of a rational toward zero, the mathematical content of
Rust's `f64::trunc` / float-to-int casts (`q.den` is positive). -/
def ratTrunc (q : ℚ) : Int := Int.tdiv q.num (q.den : Int)

/-- Rust `f64::fract` / `x % 1.0`: the self-signed fractional part. -/
def ratFract (q : ℚ) : ℚ := q - (ratTrunc q : ℚ)

/-- Rust `as i32` cast of a float: truncate toward zero and saturate at the
`i32` bounds. -/
def toI32 (q : ℚ) : Int :=
  let t := ratTrunc q
  if t < -2147483648 then -2147483648
  else if t > 2147483647 then 2147483647
  else t

/-- Smallest exponent `k` below the fuel bound with `d ∣ 10 ^ k`, used to
print a rational that denotes a float as the terminating decimal Rust's
shortest-round-trip float formatting produces. -/
def decExpGo (d : Nat) : Nat → Nat → Nat
  | 0, k => k
  | fuel + 1, k => if 10 ^ k % d = 0 then k else decExpGo d fuel (k + 1)

/-- Number of decimal digits needed for denominator `d`. -/
def decExp (d : Nat) : Nat := decExpGo d 401 0

/-- Left-pad a string with zeros to the given length. -/
def padZeros (s : String) (k : Nat) : String :=
  String.mk (List.replicate (k - s.length) (Char.ofNat 48)) ++ s

/-- Decimal rendering of a nonnegative rational with terminating decimal
expansion (the case of every rational denoting a float). -/
def showRatNN (q : ℚ) : String :=
  let k := decExp q.den
  if k = 0 then toString q.num
  else
    let scaled : Nat := q.num.toNat * 10 ^ k / q.den
    let ip := scaled / 10 ^ k
    let fp := scaled % 10 ^ k
    toString ip ++ "." ++ padZeros (toString fp) k

/-- Rust `{}` formatting of a float magnitude, on the rationals the
embedding uses for float values. -/
def showRat (q : ℚ) : String :=
  if q < 0 then "-" ++ showRatNN (-q) else showRatNN q

/-- Fuel-bounded search for the floor of `log10` of a positive rational
less than one. -/
def log10FloorLt1 (q : ℚ) : Nat → Nat → Int
  | 0, k => -(k : Int)
  | fuel + 1, k => if q * 10 ^ k ≥ 1 then -(k : Int) else log10FloorLt1 q fuel (k + 1)

/-- Floor of `log10` of a positive rational. -/
def log10Floor (q : ℚ) : Int :=
  if q ≥ 1 then (Nat.log 10 (ratTrunc q).toNat : Int) else log10FloorLt1 q 5000 0

/-- Rust `val.log10().floor() as i32`: on nonpositive inputs `log10`
yields NaN (cast: 0) or negative infinity (cast: `i32::MIN`). -/
def log10FloorCastI32 (q : ℚ) : Int :=
  if q > 0 then
    let l := log10Floor q
    if l < -2147483648 then -2147483648 else if l > 2147483647 then 2147483647 else l
  else if q = 0 then -2147483648
  else 0

/-- Key lookup in an association list, modelling `HashMap::get`. -/
def lookupL {α : Type} : List (String × α) → String → Option α
  | [], _ => none
  | (k, v) :: rest, key => if k = key then some v else lookupL rest key

/-- Key-replacing insertion, modelling `HashMap::insert` (the association
list keeps first-insertion order as its canonical iteration order). -/
def insertKV {α : Type} : List (String × α) → String → α → List (String × α)
  | [], k, v => [(k, v)]
  | (k0, v0) :: rest, k, v =>
      if k0 = k then (k, v) :: rest else (k0, v0) :: insertKV rest k v

/-- Left-to-right lookup in the prefix bimap (`BiMap::get_by_left`). -/
def lookupCharL : List (Char × Int) → Char → Option Int
  | [], _ => none
  | (c, e) :: rest, key => if c = key then some e else lookupCharL rest key

/-- Right-to-left lookup in the prefix bimap (`BiMap::get_by_right`). -/
def lookupCharR : List (Char × Int) → Int → Option Char
  | [], _ => none
  | (c, e) :: rest, key => if e = key then some c else lookupCharR rest key

/-- Quantity vector: one small signed integer exponent per SI base
dimension, `src-tauri/src/fields/units.rs` (`struct Quantity`); the older
`src-tauri/src/units.rs` uses a bare `Vec<i32>` with the same operations. -/
structure Quantity where
  quantity : List Int
deriving DecidableEq, Repr

namespace Quantity

/-- Componentwise map (`Quantity::map`). -/
def map (q : Quantity) (f : Int → Int) : Quantity := ⟨q.quantity.map f⟩

/-- Componentwise zip (`Quantity::zip`). -/
def zipPairs (a b : Quantity) : List (Int × Int) := a.quantity.zip b.quantity

/-- Sum of absolute exponents (`Quantity::dimensionality`). -/
def dimensionality (q : Quantity) : Int := (q.quantity.map (fun x => |x|)).sum

/-- The power by which this quantity fits inside a larger one
(`Quantity::find_subset_power`): truncating quotients over the axes where
both are nonzero, minimised. -/
def findSubsetPower (a b : Quantity) : Option Int :=
  let exps := (a.zipPairs b).filterMap
    (fun p => if p.1 ≠ 0 ∧ p.2 ≠ 0 then some (Int.tdiv p.2 p.1) else none)
  exps.min?

/-- Compatible-subset test (`Quantity::is_subset`). -/
def isSubset (a b : Quantity) : Bool :=
  match a.findSubsetPower b with
  | none => false
  | some e =>
      let sign := Int.sign e
      (a.zipPairs b).all (fun p =>
        let su := p.1
        let se := p.2
        su = 0 ∨ ((su * sign).sign = se.sign ∧ |su| ≤ |se|))

/-- Scalar multiple (`Quantity::powi`). -/
def powi (q : Quantity) (n : Int) : Quantity := q.map (fun a => a * n)

/-- Componentwise division by `n`, failing when some component is not
evenly divisible (`Quantity::root`, `src-tauri/src/fields/units.rs`
lines 152-159).  In Rust `% 0` panics; the caller guards `n = 0`. -/
def root (q : Quantity) (n : Int) : Except String Quantity :=
  if q.quantity.any (fun m => Int.tmod m n ≠ 0) then
    Except.error "Failed to take the root of a quantity"
  else
    Except.ok (q.map (fun a => Int.tdiv a n))

/-- Componentwise sum (`impl Add for Quantity`). -/
def add (a b : Quantity) : Quantity :=
  ⟨(a.zipPairs b).map (fun p => p.1 + p.2)⟩

/-- Componentwise difference (`impl Sub for Quantity`). -/
def sub (a b : Quantity) : Quantity :=
  ⟨(a.zipPairs b).map (fun p => p.1 - p.2)⟩

/-- Named base quantities from `src-tauri/src/fields/units.rs`. -/
def length : Quantity := ⟨[1, 0, 0, 0, 0, 0, 0]⟩

/-- Time quantity. -/
def time : Quantity := ⟨[0, 1, 0, 0, 0, 0, 0]⟩

/-- Frequency quantity. -/
def frequency : Quantity := ⟨[0, -1, 0, 0, 0, 0, 0]⟩

/-- Mass quantity. -/
def mass : Quantity := ⟨[0, 0, 1, 0, 0, 0, 0]⟩

/-- Electric current quantity. -/
def current : Quantity := ⟨[0, 0, 0, 1, 0, 0, 0]⟩

/-- Temperature quantity. -/
def temp : Quantity := ⟨[0, 0, 0, 0, 1, 0, 0]⟩

/-- Amount-of-substance quantity. -/
def amount : Quantity := ⟨[0, 0, 0, 0, 0, 1, 0]⟩

/-- Luminous-intensity quantity. -/
def lumenous : Quantity := ⟨[0, 0, 0, 0, 0, 0, 1]⟩

/-- Force quantity. -/
def force : Quantity := ⟨[1, -2, 1, 0, 0, 0, 0]⟩

/-- Pressure quantity. -/
def pressure : Quantity := ⟨[-1, -2, 1, 0, 0, 0, 0]⟩

/-- All-zero quantity (`Quantity::unitless`). -/
def unitless : Quantity := ⟨[0, 0, 0, 0, 0, 0, 0]⟩

end Quantity

/-- Named unit: display name, SI scale factor, quantity vector
(`struct Unit` in `src-tauri/src/fields/units.rs`). -/
structure Unit where
  name : String
  si_scale : ℚ
  quantity : Quantity
deriving DecidableEq, Repr

/-- Metric-prefix bimap (`prefix_map`). -/
def prefixMap : List (Char × Int) :=
  [('p', -12), ('n', -9), ('u', -6), ('m', -3), ('k', 3), ('M', 6), ('G', 9), ('T', 12)]

/-- Static unit registry (`unit_map`), in source insertion order (Rust's
`HashMap` iteration order is arbitrary; this list order is the embedding's
canonical one, and every fact proved below is insensitive to it). -/
def unitMap : List (String × Unit) :=
  [ ("Pa", ⟨"Pa", 1, Quantity.pressure⟩),
    ("psi", ⟨"psi", 6894757 / 1000, Quantity.pressure⟩),
    ("bar", ⟨"bar", 100000, Quantity.pressure⟩),
    ("N", ⟨"N", 1, Quantity.force⟩),
    ("lbf", ⟨"lbf", 4448222 / 1000000, Quantity.force⟩),
    ("m", ⟨"m", 1, Quantity.length⟩),
    ("ft", ⟨"ft", 3048 / 10000, Quantity.length⟩),
    ("in", ⟨"in", 254 / 10000, Quantity.length⟩),
    ("s", ⟨"s", 1, Quantity.time⟩),
    ("lb", ⟨"lb", 4535924 / 10000000, Quantity.mass⟩),
    ("kg", ⟨"kg", 1, Quantity.mass⟩),
    ("g", ⟨"g", 1 / 1000, Quantity.mass⟩),
    ("Hz", ⟨"Hz", 1, Quantity.frequency⟩),
    ("A", ⟨"A", 1, Quantity.current⟩),
    ("K", ⟨"K", 1, Quantity.temp⟩),
    ("mol", ⟨"mol", 1, Quantity.amount⟩),
    ("cd", ⟨"cd", 1, Quantity.lumenous⟩) ]

/-- Preferred unit subsets per system (`unit_system`). -/
def unitSystemMap : List (String × List String) :=
  [ ("SI", ["m", "s", "kg", "A", "K", "cd", "N", "Pa"]),
    ("US", ["ft", "s", "lb", "A", "K", "cd", "lbf"]) ]

/-- Dimensioned value: SI-scaled magnitude paired with a quantity vector
(`struct UnitVal`). -/
structure UnitVal where
  value : ℚ
  quantity : Quantity
deriving DecidableEq, Repr

namespace UnitVal

/-- Unitless value (`UnitVal::scalar`). -/
def scalar (v : ℚ) : UnitVal := ⟨v, Quantity.unitless⟩

/-- Scalar test (`UnitVal::is_scalar`). -/
def isScalar (v : UnitVal) : Bool := v.quantity = Quantity.unitless

/-- Prefix-splitting unit-symbol parser from `src-tauri/src/unit_value.rs`
lines 79-103 (`UnitVal::from_unit_str`): `kg` is special-cased; otherwise
the prefix+base decomposition is tried first whenever the symbol is longer
than one character and starts with a prefix character; the bare lookup is
the fallback.  Note the bare-miss arm evaluates `base_unit.unwrap()` on a
`None`, a panic. -/
def fromUnitStr (unit : String) : RunRes (Int × Unit) :=
  if unit = "" then
    Except.error (RErr.err (Error.unitError "No units given. Value is scalar"))
  else
    let possPre := unit.front
    if unit = "kg" then
      match lookupL unitMap "kg" with
      | some u => Except.ok (0, u)
      | none => Except.error (RErr.panic "called Option unwrap on a None value")
    else if unit.length > 1 ∧ (lookupCharL prefixMap possPre).isSome then
      let shorthand := unit.drop 1
      match lookupCharL prefixMap possPre, lookupL unitMap shorthand with
      | some e, some q => Except.ok (e, q)
      | none, _ =>
          Except.error (RErr.err (Error.unitError
            ("Invalid unit prefix " ++ sq (String.singleton possPre))))
      | _, none => Except.error (RErr.err (Error.defNotFound shorthand))
    else
      match lookupL unitMap unit with
      | some q => Except.ok (0, q)
      | none => Except.error (RErr.panic "called Option unwrap on a None value")

/-- Same parser in its older form, `src-tauri/src/units.rs` lines 86-110:
identical branch structure, but both miss arms return proper `UnitError`s
instead of the newer file's `DefinitionNotFoundError` / `unwrap` panic. -/
def fromUnitStrUnits (unit : String) : RunRes (Int × Unit) :=
  if unit = "" then
    Except.error (RErr.err (Error.unitError "No units given. Value is scalar"))
  else
    let possPre := unit.front
    if unit = "kg" then
      match lookupL unitMap "kg" with
      | some u => Except.ok (0, u)
      | none => Except.error (RErr.panic "called Option unwrap on a None value")
    else if unit.length > 1 ∧ (lookupCharL prefixMap possPre).isSome then
      let shorthand := unit.drop 1
      match lookupCharL prefixMap possPre, lookupL unitMap shorthand with
      | some e, some q => Except.ok (e, q)
      | none, _ =>
          Except.error (RErr.err (Error.unitError
            ("Invalid unit prefix " ++ sq (String.singleton possPre))))
      | _, none =>
          Except.error (RErr.err (Error.unitError
            ("Invalid base unit " ++ sq shorthand)))
    else
      match lookupL unitMap unit with
      | some q => Except.ok (0, q)
      | none =>
          Except.error (RErr.err (Error.unitError ("Invalid base unit " ++ sq unit)))

/-- Validity test over the older symbol parser (`UnitVal::is_valid_unit`,
`src-tauri/src/units.rs`). -/
def isValidUnit (unit : String) : Bool := (fromUnitStrUnits unit).isOk

/-- Construct a value with a unit symbol (`UnitVal::new_value`,
`src-tauri/src/units.rs` lines 28-36: scale by the prefix's power of ten,
then into SI via the base unit's scale).  The `.unwrap()` on the symbol
parser is a panic when the symbol is invalid. -/
def newValueUnits (value : ℚ) (unit : String) : RunRes UnitVal :=
  if unit = "" then Except.ok (scalar value)
  else
    match fromUnitStrUnits unit with
    | Except.ok (e, base) =>
        let scaled := value * (10 : ℚ) ^ e
        Except.ok ⟨scaled * base.si_scale, base.quantity⟩
    | Except.error _ => Except.error (RErr.panic "called Result unwrap on an Err value")

/-- Identity magnitude with a unit symbol (`UnitVal::new_identity`). -/
def newIdentityUnits (unit : String) : RunRes UnitVal := newValueUnits 1 unit

end UnitVal

/-- Ordering on rendered unit pairs: Rust sorts `(&str, i32)` tuples
lexicographically (names are unique in the map, so the name decides). -/
def pairLe (a b : String × Int) : Bool :=
  a.1 < b.1 ∨ (a.1 = b.1 ∧ a.2 ≤ b.2)

/-- Ordered insertion for `sortPairs`. -/
def insertPair (p : String × Int) : List (String × Int) → List (String × Int)
  | [] => [p]
  | q :: rest => if pairLe p q then p :: q :: rest else q :: insertPair p rest

/-- Sorting of the used-unit map prior to rendering
(`units.iter().sorted()` in `Unit::get_unit_str`). -/
def sortPairs (l : List (String × Int)) : List (String × Int) :=
  l.foldr insertPair []

namespace Unit

/-- One rendered unit token: `name` for absolute exponent one, else
`name^k` with `k` the absolute exponent. -/
def unitTok (name : String) (power : Int) : String :=
  if power.natAbs = 1 then name else name ++ "^" ++ toString power.natAbs

/-- Body of `Unit::get_unit_str` (`src-tauri/src/fields/units.rs` lines
30-47): walk the sorted pairs, pushing a single `/` just before the first
negative exponent encountered. -/
def getUnitStrGo : List (String × Int) → Bool → String
  | [], _ => ""
  | (n, p) :: rest, seenNeg =>
      (if p < 0 ∧ seenNeg = false then "/" else "") ++ unitTok n p
        ++ getUnitStrGo rest (seenNeg || decide (p < 0))

/-- Rendered unit text of a used-unit map (`Unit::get_unit_str`). -/
def getUnitStr (units : List (String × Int)) : String :=
  getUnitStrGo (sortPairs units) false

/-- One pass of the candidate-selection `for` loop inside
`Unit::compile_used_units`: fold over a snapshot of the available units,
keeping the best-scoring compatible subset and removing incompatible units
from the available map.  State is `(best_unit, best_match, exp,
remaining_quantity)` plus the mutated available map. -/
def selectGo (sys : List String) (cur : Quantity) :
    List (String × Unit) → (String × Int × Int × Quantity) → List (String × Unit) →
    ((String × Int × Int × Quantity) × List (String × Unit))
  | [], best, avail => (best, avail)
  | (name, u) :: rest, best, avail =>
      if sys.contains name ∧ u.quantity.isSubset cur then
        let score : Int := (u.quantity.quantity.map (fun x => |x|)).sum
        if score > best.2.1 then
          match u.quantity.findSubsetPower cur with
          | some exp =>
              let remaining : Quantity :=
                ⟨(u.quantity.zipPairs cur).map (fun p => p.2 - p.1 * exp)⟩
              selectGo sys cur rest (name, score, exp, remaining) avail
          | none =>
              -- dead arm: `is_subset` returning true forces a power to exist
              -- (the Rust code `.expect`s it)
              selectGo sys cur rest best avail
        else selectGo sys cur rest best avail
      else
        selectGo sys cur rest best (avail.filter (fun p => p.1 ≠ name))

/-- The `while` loop of `Unit::compile_used_units`, with `fuel` standing
for the remaining allowance out of `max_iter = 5` and `iters` the loop
counter; returns the used units, the leftover quantity and the final
counter value. -/
def compileLoop (sys : List String) :
    Nat → List (String × Unit) → List (String × Int) → Quantity → Nat →
    (List (String × Int) × Quantity × Nat)
  | 0, _, used, cur, iters => (used, cur, iters)
  | fuel + 1, avail, used, cur, iters =>
      if cur.dimensionality ≠ 0 ∧ iters < 5 then
        let (best, avail2) := selectGo sys cur avail ("", 0, 0, cur) avail
        compileLoop sys fuel avail2 (insertKV used best.1 best.2.2.1) best.2.2.2 (iters + 1)
      else (used, cur, iters)

/-- Decomposition of a quantity into system-preferred named units
(`Unit::compile_used_units`, `src-tauri/src/fields/units.rs` lines 50-86).
The original formats the offending quantities into its error message; the
message is elided here because every caller `unwrap`s the result. -/
def compileUsedUnits (quantity : Quantity) (system : String) : RunRes (List (String × Int)) :=
  match lookupL unitSystemMap system with
  | none => Except.error (RErr.panic "no entry found for key")
  | some sys =>
      let (used, _cur, iters) := compileLoop sys 5 unitMap [] quantity 0
      if iters ≥ 5 then
        Except.error (RErr.err (Error.unitError "Unable to compile units to string"))
      else Except.ok used

/-- Composite unit built from a used-unit map (`Unit::compose`): the SI
scale is the product of member scales raised to their exponents, the name
is the rendered unit text.  The member lookups `unwrap`. -/
def compose (units : List (String × Int)) (quantity : Quantity) : RunRes Unit :=
  match units.mapM (fun p =>
      match lookupL unitMap p.1 with
      | some u => Except.ok (u, p.2)
      | none => (Except.error (RErr.panic "called Option unwrap on a None value")
          : RunRes (Unit × Int))) with
  | Except.error e => Except.error e
  | Except.ok unitVec =>
      let siScale := unitVec.foldl (fun acc p => acc * p.1.si_scale ^ p.2) 1
      Except.ok ⟨getUnitStr units, siScale, quantity⟩

/-- Conversion out of SI (`Unit::from_si`). -/
def fromSi (u : Unit) (value : ℚ) : ℚ := value / u.si_scale

end Unit

/-- Concatenated rendering of unit tokens, each `name` or `name^|k|`,
used to state what `get_unit_str` produces. -/
def renderSeq : List (String × Int) → String
  | [] => ""
  | p :: rest => Unit.unitTok p.1 p.2 ++ renderSeq rest

namespace UnitVal

/-- Rendering of a dimensioned value (`UnitVal::to_string`,
`src-tauri/src/unit_value.rs` lines 38-68): decompose the quantity in the
SI system (`unwrap`: failure panics), compose the units, then either print
the raw SI magnitude (several positive units, or kilograms), or try a
metric prefix for the single positive unit.  The result is a `RunRes`
because of the `unwrap`. -/
def toStringR (v : UnitVal) : RunRes String :=
  if v.isScalar then Except.ok (showRat v.value)
  else
    match Unit.compileUsedUnits v.quantity "SI" with
    | Except.error _ => Except.error (RErr.panic "called Result unwrap on an Err value")
    | Except.ok used =>
      match Unit.compose used v.quantity with
      | Except.error e => Except.error e
      | Except.ok baseUnit =>
        let val := baseUnit.fromSi v.value
        let numeratorUnits := used.filter (fun p => p.2 > 0)
        let hasUnitsMultiplied := numeratorUnits.length > 1
        if hasUnitsMultiplied ∨ baseUnit.name = "kg" then
          Except.ok (showRat v.value ++ " " ++ baseUnit.name)
        else
          match numeratorUnits.head? with
          | some np =>
              let valExp := log10FloorCastI32 val
              let valExp := Int.tdiv valExp 3 * 3
              let reducedVal := val / (10 : ℚ) ^ valExp
              let valExp := Int.tdiv valExp np.2
              match lookupCharR prefixMap valExp with
              | some p =>
                  Except.ok (showRat reducedVal ++ " " ++ String.singleton p ++ baseUnit.name)
              | none => Except.ok (showRat val ++ " " ++ baseUnit.name)
          | none => Except.ok (showRat val ++ " " ++ baseUnit.name)

/-- Scalar coercion (`UnitVal::as_scalar`, both generations): error (whose
message renders the value, hence can panic) unless unitless. -/
def asScalar (v : UnitVal) : RunRes ℚ :=
  if v.quantity ≠ Quantity.unitless then
    match v.toStringR with
    | Except.ok s =>
        Except.error (RErr.err (Error.unitError ("Cannot convert unit to scalar: " ++ s)))
    | Except.error e => Except.error e
  else Except.ok v.value

/-- Integer power (`UnitVal::powi`): exact power of the magnitude, scaled
quantity. -/
def powi (v : UnitVal) (n : Int) : UnitVal :=
  ⟨v.value ^ n, v.quantity.powi n⟩

/-- Fractional part capability of the newer generation
(`UnitVal::fract`, `src-tauri/src/unit_value.rs` lines 154-158:
`self.as_scalar()? % 1.0`). -/
def fract (v : UnitVal) : RunRes ℚ :=
  match v.asScalar with
  | Except.error e => Except.error e
  | Except.ok x => Except.ok (ratFract x)

/-- The same capability in the older generation (`UnitVal::fract`,
`src-tauri/src/units.rs` lines 156-159) computes `1.0 / x` — the
reciprocal, not the fractional part.  The float `1.0 / 0.0` is infinite,
in particular nonzero; it is modelled by `1` (the embedding only ever
compares this result with zero, as the source does). -/
def fractOld (v : UnitVal) : RunRes ℚ :=
  match v.asScalar with
  | Except.error e => Except.error e
  | Except.ok x => Except.ok (if x = 0 then 1 else 1 / x)

/-- Integer root (`UnitVal::root`, `src-tauri/src/unit_value.rs` lines
142-152): for integral `n`, divide the quantity by `n` (`Quantity::root`;
in Rust `% 0` panics, guarded here) and raise the magnitude to `1/n` via
the abstract float power `fpow`. -/
def root (fpow : ℚ → ℚ → ℚ) (v nv : UnitVal) : RunRes UnitVal :=
  match nv.asScalar with
  | Except.error e => Except.error e
  | Except.ok n =>
    if ratFract n ≠ 0 then
      match v.toStringR with
      | Except.ok s =>
          Except.error (RErr.err (Error.unitError
            ("Cannot take the " ++ showRat n ++ "th root of " ++ s)))
      | Except.error e => Except.error e
    else if toI32 n = 0 then
      Except.error (RErr.panic "attempt to calculate the remainder with a divisor of zero")
    else
      match v.quantity.root (toI32 n) with
      | Except.ok newQ => Except.ok ⟨fpow v.value (1 / n), newQ⟩
      | Except.error _ =>
          match v.toStringR with
          | Except.ok s =>
              Except.error (RErr.err (Error.unitError
                ("Cannot take the " ++ showRat n ++ "th root of " ++ s)))
          | Except.error e => Except.error e

/-- Power (`UnitVal::powf`, `src-tauri/src/unit_value.rs` lines 128-140):
integer exponent → `powi`; reciprocal-of-integer exponent below one in
magnitude → `root`; anything else → coerce the base to a scalar (an error
for dimensioned values) and apply the abstract float power. -/
def powf (fpow : ℚ → ℚ → ℚ) (v expv : UnitVal) : RunRes UnitVal :=
  match expv.asScalar with
  | Except.error e => Except.error e
  | Except.ok exp =>
    if ratFract exp = 0 then Except.ok (v.powi (toI32 exp))
    else if |exp| < 1 ∧ ratFract (1 / exp) = 0 then
      v.root fpow (scalar (1 / exp))
    else
      match v.asScalar with
      | Except.error e => Except.error e
      | Except.ok value => Except.ok (scalar (fpow value exp))

/-- Power in the older generation (`UnitVal::powf`, `src-tauri/src/units.rs`
lines 132-141): no root branch at all. -/
def powfOld (fpow : ℚ → ℚ → ℚ) (v expv : UnitVal) : RunRes UnitVal :=
  match expv.asScalar with
  | Except.error e => Except.error e
  | Except.ok exp =>
    if ratFract exp = 0 then Except.ok (v.powi (toI32 exp))
    else
      match v.asScalar with
      | Except.error e => Except.error e
      | Except.ok value => Except.ok (scalar (fpow value exp))

/-- Square root of the older generation (`UnitVal::sqrt`,
`src-tauri/src/units.rs` lines 151-154): scalars only, via the abstract
float square root. -/
def sqrtOld (fsqrt : ℚ → ℚ) (v : UnitVal) : RunRes UnitVal :=
  match v.asScalar with
  | Except.error e => Except.error e
  | Except.ok x => Except.ok (scalar (fsqrt x))

/-- Multiplication (`impl Mul for UnitVal`): multiply magnitudes, add
quantity vectors; never fails. -/
def mul (a b : UnitVal) : UnitVal :=
  ⟨a.value * b.value, a.quantity.add b.quantity⟩

/-- Division (`impl Div for UnitVal`): divide magnitudes, subtract
quantity vectors; never fails. -/
def div (a b : UnitVal) : UnitVal :=
  ⟨a.value / b.value, a.quantity.sub b.quantity⟩

/-- Addition (`impl Add for UnitVal`): requires equal quantity vectors,
else an error whose message quotes both rendered operands (rendering can
itself panic). -/
def add (a b : UnitVal) : RunRes UnitVal :=
  if a.quantity ≠ b.quantity then
    match a.toStringR, b.toStringR with
    | Except.ok s1, Except.ok s2 =>
        Except.error (RErr.err (Error.unitError
          ("Cannot add units with different quantities: " ++ dq s1 ++ " and " ++ dq s2)))
    | Except.error e, _ => Except.error e
    | _, Except.error e => Except.error e
  else Except.ok ⟨a.value + b.value, a.quantity⟩

/-- Subtraction (`impl Sub for UnitVal`): same shape as addition. -/
def sub (a b : UnitVal) : RunRes UnitVal :=
  if a.quantity ≠ b.quantity then
    match a.toStringR, b.toStringR with
    | Except.ok s1, Except.ok s2 =>
        Except.error (RErr.err (Error.unitError
          ("Cannot subtract units with different quantities: " ++ dq s1 ++ " and " ++ dq s2)))
    | Except.error e, _ => Except.error e
    | _, Except.error e => Except.error e
  else Except.ok ⟨a.value - b.value, a.quantity⟩

end UnitVal

/-- Expression tree (`enum Expr` in `src-tauri/src/types.rs`); the
`LatexExpr` payload of `ETex` (name, superscript, subscript, params) is
inlined as constructor fields. -/
inductive Expr where
  | ENum (v : UnitVal)
  | EVar (name : String)
  | EFunc (name : String) (args : List Expr)
  | EAdd (a b : Expr)
  | ESub (a b : Expr)
  | EMul (a b : Expr)
  | EDiv (a b : Expr)
  | EExp (a b : Expr)
  | ETex (name : String) (sup : Option Expr) (sub : Option Expr) (params : List Expr)
  | EDefVar (name : String) (rhs : Expr)
  | EDefFunc (name : String) (params : List String) (body : Expr)

/-- Session context (`struct Context`): variable and function bindings. -/
structure Context where
  vars : List (String × UnitVal)
  funcs : List (String × (List String × Expr))

/-- Empty session context (`Context::new`). -/
def Context.new : Context := ⟨[], []⟩

/-- The genuinely transcendental float operations the evaluator calls,
kept abstract: `f64::powf` (non-integer exponents), `sqrt`, `sin`, `cos`,
`tan`.  Theorems quantify over them. -/
structure FloatOps where
  fpow : ℚ → ℚ → ℚ
  fsqrt : ℚ → ℚ
  fsin : ℚ → ℚ
  fcos : ℚ → ℚ
  ftan : ℚ → ℚ

/-- Trivial instantiation of the abstract float operations, used by
concrete witnesses (none of whose runs reach these operations). -/
def zeroOps : FloatOps := ⟨fun _ _ => 0, fun _ => 0, fun _ => 0, fun _ => 0, fun _ => 0⟩

/-- The integers of the half-open Rust range `a..b`. -/
def rangeInts (a b : Int) : List Int :=
  (List.range (b - a).toNat).map (fun k => a + (k : Int))

mutual

/-- Top of the evaluator (`eval_mut_context_def`,
`src-tauri/src/evaluator.rs` lines 12-37).  Returns the Rust result
together with the context left behind by the `&mut Context` (`fuel` is the
embedding's totality device: each recursive call spends one unit, and
running out yields the distinguished `RErr.fuelOut`). -/
def evalMutContextDef (ops : FloatOps) : Nat → Expr → Context → Option String →
    (RunRes (Option UnitVal)) × Context
  | 0, _, ctx, _ => (Except.error RErr.fuelOut, ctx)
  | fuel + 1, Expr.EDefVar var rhs, ctx, defining =>
      (match evalExpr ops fuel rhs ctx (some var) with
       | Except.error e => (Except.error e, ctx)
       | Except.ok result =>
         match defining with
         | some d =>
             (Except.error (RErr.err (Error.evalError
               ("Cannot contain nested variable definitions (variable "
                 ++ sq var ++ " & " ++ sq d ++ ")"))), ctx)
         | none =>
           if (lookupL ctx.vars var).isSome then
             (Except.error (RErr.err (Error.evalError
               ("Variable " ++ sq var ++ " already defined"))), ctx)
           else (Except.ok (some result), ⟨insertKV ctx.vars var result, ctx.funcs⟩))
  | _ + 1, Expr.EDefFunc name params body, ctx, defining =>
      (match defining with
       | some d =>
           (Except.error (RErr.err (Error.evalError
             ("Cannot contain nested variable definitions (variable "
               ++ sq name ++ " & " ++ sq d ++ ")"))), ctx)
       | none =>
         if (lookupL ctx.funcs name).isSome then
           (Except.error (RErr.err (Error.evalError
             ("Variable " ++ sq name ++ " already defined"))), ctx)
         else (Except.ok none, ⟨ctx.vars, insertKV ctx.funcs name (params, body)⟩))
  | fuel + 1, e, ctx, defining =>
      (match evalExpr ops fuel e ctx defining with
       | Except.error er => (Except.error er, ctx)
       | Except.ok v => (Except.ok (some v), ctx))

/-- Expression evaluation against an immutable context (`eval_expr`,
`src-tauri/src/evaluator.rs` lines 45-91). -/
def evalExpr (ops : FloatOps) : Nat → Expr → Context → Option String → RunRes UnitVal
  | 0, _, _, _ => Except.error RErr.fuelOut
  | _ + 1, Expr.ENum v, _, _ => Except.ok v
  | fuel + 1, Expr.EAdd a b, ctx, defining => do
      let x ← evalExpr ops fuel a ctx defining
      let y ← evalExpr ops fuel b ctx defining
      x.add y
  | fuel + 1, Expr.ESub a b, ctx, defining => do
      let x ← evalExpr ops fuel a ctx defining
      let y ← evalExpr ops fuel b ctx defining
      x.sub y
  | fuel + 1, Expr.EMul a b, ctx, defining => do
      let x ← evalExpr ops fuel a ctx defining
      let y ← evalExpr ops fuel b ctx defining
      Except.ok (x.mul y)
  | fuel + 1, Expr.EDiv a b, ctx, defining => do
      let x ← evalExpr ops fuel a ctx defining
      let y ← evalExpr ops fuel b ctx defining
      Except.ok (x.div y)
  | fuel + 1, Expr.EExp a b, ctx, defining => do
      let x ← evalExpr ops fuel a ctx defining
      let y ← evalExpr ops fuel b ctx defining
      x.powfOld ops.fpow y
  | _ + 1, Expr.EVar var, ctx, defining =>
      if defining = some var then
        Except.error (RErr.err (Error.evalError
          ("Variable " ++ sq var ++ " cannot be defined recursively")))
      else
        match lookupL ctx.vars var with
        | some v => Except.ok v
        | none =>
            Except.error (RErr.err (Error.evalError
              ("Variable " ++ sq var ++ " not defined")))
  | fuel + 1, Expr.EFunc name inputs, ctx, defining =>
      (match applyDefaultFunction ops fuel name inputs ctx defining with
       | Except.ok v => Except.ok v
       | Except.error (RErr.panic m) => Except.error (RErr.panic m)
       | Except.error RErr.fuelOut => Except.error RErr.fuelOut
       | Except.error (RErr.err _) =>
         if defining = some name then
           Except.error (RErr.err (Error.evalError
             ("Function " ++ sq name ++ " cannot be defined recursively")))
         else
           match lookupL ctx.funcs name with
           | some (params, funcDef) =>
             if params.length ≠ inputs.length then
               Except.error (RErr.err (Error.evalError
                 ("Function " ++ sq name ++ " expects " ++ toString params.length
                   ++ " arguments, but got " ++ toString inputs.length)))
             else
               match evalArgs ops fuel params inputs ctx ctx defining with
               | Except.error e => Except.error e
               | Except.ok evalCtx => evalExpr ops fuel funcDef evalCtx defining
           | none =>
               Except.error (RErr.err (Error.evalError
                 ("Function " ++ sq name ++ " not defined"))))
  | fuel + 1, Expr.ETex name sup sub params, ctx, defining =>
      evalLatex ops fuel name sup sub params ctx defining
  | _ + 1, Expr.EDefVar _ _, _, _ =>
      Except.error (RErr.err (Error.evalError
        "Unexpected expression. Did you mean to call eval_mut_context_def?"))
  | _ + 1, Expr.EDefFunc _ _ _, _, _ =>
      Except.error (RErr.err (Error.evalError
        "Unexpected expression. Did you mean to call eval_mut_context_def?"))

/-- Argument-binding loop of a user-function call: each input is evaluated
in the caller's context, each result bound over the cloned context. -/
def evalArgs (ops : FloatOps) : Nat → List String → List Expr → Context → Context → Option String →
    RunRes Context
  | 0, _, _, _, _, _ => Except.error RErr.fuelOut
  | fuel + 1, p :: ps, e :: es, callerCtx, acc, defining =>
      (match evalExpr ops fuel e callerCtx defining with
       | Except.error er => Except.error er
       | Except.ok v =>
           evalArgs ops fuel ps es callerCtx ⟨insertKV acc.vars p v, acc.funcs⟩ defining)
  | _ + 1, _, _, _, acc, _ => Except.ok acc

/-- Built-in unary functions (`apply_default_function`,
`src-tauri/src/evaluator.rs` lines 93-109).  Note the unconditional
`inputs.get(0).unwrap()`: with an empty argument list this panics. -/
def applyDefaultFunction (ops : FloatOps) : Nat → String → List Expr → Context → Option String →
    RunRes UnitVal
  | 0, _, _, _, _ => Except.error RErr.fuelOut
  | fuel + 1, name, inputs, ctx, defining =>
      if inputs.length > 1 then
        Except.error (RErr.err (Error.evalError "Default functions only accept one argument"))
      else
        match inputs.head? with
        | none => Except.error (RErr.panic "called Option unwrap on a None value")
        | some arg =>
          match evalExpr ops fuel arg ctx defining with
          | Except.error e => Except.error e
          | Except.ok input =>
            if name = "sin" then do
              let x ← input.asScalar
              Except.ok (UnitVal.scalar (ops.fsin x))
            else if name = "cos" then do
              let x ← input.asScalar
              Except.ok (UnitVal.scalar (ops.fcos x))
            else if name = "tan" then do
              let x ← input.asScalar
              Except.ok (UnitVal.scalar (ops.ftan x))
            else
              Except.error (RErr.err (Error.evalError
                ("Function " ++ sq name ++ " not defined")))

/-- LaTeX-command dispatch (`eval_latex`, `src-tauri/src/evaluator.rs`
lines 111-171): `frac`, `sqrt`, the `sum` reduction, and an
unrecognized-command error for everything else (there is no `prod` arm in
the source).  The source formats the offending expression into the
malformed-`sum` message; the text is elided here. -/
def evalLatex (ops : FloatOps) : Nat → String → Option Expr → Option Expr → List Expr → Context →
    Option String → RunRes UnitVal
  | 0, _, _, _, _, _, _ => Except.error RErr.fuelOut
  | fuel + 1, name, sup, sub, params, ctx, defining =>
      if name = "frac" then
        if params.length ≠ 2 then
          Except.error (RErr.err (Error.evalError "frac expects 2 arguments"))
        else if sub.isSome ∨ sup.isSome then
          Except.error (RErr.err (Error.evalError
            "frac does not support subscripts or superscripts"))
        else
          match params with
          | [a, b] => do
              let x ← evalExpr ops fuel a ctx defining
              let y ← evalExpr ops fuel b ctx defining
              Except.ok (x.div y)
          | _ => Except.error (RErr.panic "called Option unwrap on a None value")
      else if name = "sqrt" then
        if params.length ≠ 1 then
          Except.error (RErr.err (Error.evalError "Square root expects 1 argument"))
        else if sub.isSome ∨ sup.isSome then
          Except.error (RErr.err (Error.evalError
            "Square root does not support subscripts or superscripts"))
        else
          match params.head? with
          | some a => do
              let v ← evalExpr ops fuel a ctx defining
              v.sqrtOld ops.fsqrt
          | none => Except.error (RErr.panic "called Option unwrap on a None value")
      else if name = "sum" then
        if params.length ≠ 1 ∨ sub.isNone ∨ sup.isNone then
          Except.error (RErr.err (Error.evalError
            "Summation expects a parameter, a subscript, and a superscript"))
        else
          match params.head?, sup, sub with
          | some param, some supE, some subE =>
              (match evalExpr ops fuel supE ctx defining with
               | Except.error e => Except.error e
               | Except.ok up =>
                 let ubVar := match subE with
                   | Expr.EDefVar n _ => some n
                   | _ => none
                 match evalMutContextDef ops fuel subE ctx defining with
                 | (Except.error e, _) => Except.error e
                 | (Except.ok none, _) =>
                     Except.error (RErr.panic "called Option unwrap on a None value")
                 | (Except.ok (some ub), sumCtx) =>
                   match up.fractOld, ub.fractOld with
                   | Except.error e, _ => Except.error e
                   | _, Except.error e => Except.error e
                   | Except.ok upf, Except.ok ubf =>
                     if upf ≠ 0 ∨ ubf ≠ 0 then
                       Except.error (RErr.err (Error.evalError
                         "Summation bounds must be integers"))
                     else
                       match up.asScalar, ub.asScalar with
                       | Except.error e, _ => Except.error e
                       | _, Except.error e => Except.error e
                       | Except.ok ups, Except.ok ubs =>
                         sumLoop ops fuel ubVar param (rangeInts (toI32 ubs) (toI32 ups + 1))
                           sumCtx defining 0)
          | _, _, _ => Except.error (RErr.panic "called Option unwrap on a None value")
      else
        Except.error (RErr.err (Error.evalError
          ("Unrecognized latex expression " ++ sq name)))

/-- The `for i in ub..up` accumulation loop of the `sum` arm: rebind the
loop variable (when the subscript bound one), evaluate the body, coerce to
scalar, add. -/
def sumLoop (ops : FloatOps) : Nat → Option String → Expr → List Int → Context → Option String → ℚ →
    RunRes UnitVal
  | _, _, _, [], _, _, acc => Except.ok (UnitVal.scalar acc)
  | 0, _, _, _ :: _, _, _, _ => Except.error RErr.fuelOut
  | fuel + 1, ubVar, param, i :: rest, ctx, defining, acc =>
      let ctx2 : Context := match ubVar with
        | some n => ⟨insertKV ctx.vars n (UnitVal.scalar (i : ℚ)), ctx.funcs⟩
        | none => ctx
      match evalExpr ops fuel param ctx2 defining with
      | Except.error e => Except.error e
      | Except.ok v =>
        match v.asScalar with
        | Except.error e => Except.error e
        | Except.ok s => sumLoop ops fuel ubVar param rest ctx2 defining (acc + s)

end

/-- Public evaluator entry (`eval_mut_context`): no name is being
defined. -/
def evalMutContext (ops : FloatOps) (fuel : Nat) (e : Expr) (ctx : Context) :
    (RunRes (Option UnitVal)) × Context :=
  evalMutContextDef ops fuel e ctx none

/-! Parser embedding, `src-tauri/src/parser.rs` and
`src-tauri/src/parsing_helpers.rs`.  The input span is the remaining
character list; nom's recoverable `Err::Error` is `soft`, its committed
`Err::Failure` is `hard` (`alt` retries after `soft` only).  Error
messages that no claim inspects are abbreviated. -/

/-- Parse-failure channel: recoverable vs. committed, with a message. -/
inductive PFail where
  | soft (msg : String)
  | hard (msg : String)
deriving DecidableEq, Repr

/-- Parser result: failure, or remaining input with a value. -/
abbrev PRes (α : Type) : Type := Except PFail (List Char × α)

/-- Backtracking choice (`nom::branch::alt`): take the second branch only
on a recoverable failure of the first. -/
def orElseSoft {α : Type} (a : PRes α) (b : Bool → PRes α) : PRes α :=
  match a with
  | Except.error (PFail.soft _) => b true
  | r => r

/-- ASCII space or tab (`nom::character::complete::space0`). -/
def isSpaceC (c : Char) : Bool := c = ' ' ∨ c = '\t'

/-- Consume leading spaces (`space0`; never fails). -/
def space0 (s : List Char) : List Char := s.dropWhile isSpaceC

/-- One-or-more decimal digits (`digit1`). -/
def digit1 (s : List Char) : PRes (List Char) :=
  let taken := s.takeWhile Char.isDigit
  if taken.isEmpty then Except.error (PFail.soft "digit1")
  else Except.ok (s.drop taken.length, taken)

/-- One-or-more letters (`alpha1`). -/
def alpha1 (s : List Char) : PRes (List Char) :=
  let taken := s.takeWhile Char.isAlpha
  if taken.isEmpty then Except.error (PFail.soft "alpha1")
  else Except.ok (s.drop taken.length, taken)

/-- One-or-more alphanumerics (`alphanumeric1`). -/
def alphanumeric1 (s : List Char) : PRes (List Char) :=
  let taken := s.takeWhile Char.isAlphanum
  if taken.isEmpty then Except.error (PFail.soft "alphanumeric1")
  else Except.ok (s.drop taken.length, taken)

/-- Literal match (`tag`). -/
def tagP (t : String) (s : List Char) : PRes (List Char) :=
  if t.data.isPrefixOf s then Except.ok (s.drop t.data.length, t.data)
  else Except.error (PFail.soft "tag")

/-- Single-character match (`char`). -/
def charP (c : Char) (s : List Char) : PRes Char :=
  match s with
  | c0 :: rest => if c0 = c then Except.ok (rest, c) else Except.error (PFail.soft "char")
  | [] => Except.error (PFail.soft "char")

/-- Scanner for `take_until`: split before the first occurrence of the
pattern. -/
def takeUntilGo (t : List Char) : Nat → List Char → List Char → Option (List Char × List Char)
  | 0, _, _ => none
  | fuel + 1, s, acc =>
      if t.isPrefixOf s then some (acc.reverse, s)
      else
        match s with
        | [] => none
        | c :: rest => takeUntilGo t fuel rest (c :: acc)

/-- Everything before the first occurrence of the pattern
(`take_until`; fails when the pattern is absent). -/
def takeUntil (t : String) (s : List Char) : PRes (List Char) :=
  match takeUntilGo t.data (s.length + 1) s [] with
  | some (pre, rest) => Except.ok (rest, pre)
  | none => Except.error (PFail.soft "take_until")

/-- Leading-spaces-then-alphanumeric-run starting with a letter
(`start_alpha` in `src-tauri/src/parsing_helpers.rs`). -/
def startAlpha (s : List Char) : PRes (List Char) :=
  match alphanumeric1 (space0 s) with
  | Except.error e => Except.error e
  | Except.ok (rest, first) =>
      if (first.head?.map Char.isAlpha).getD false then Except.ok (rest, first)
      else Except.error (PFail.soft "Expected alphabetic character")

/-- The `trim` combinator applied to `start_alpha`. -/
def trimStartAlpha (s : List Char) : PRes (List Char) :=
  match startAlpha (space0 s) with
  | Except.error e => Except.error e
  | Except.ok (rest, name) => Except.ok (space0 rest, name)

/-- The `trim` combinator applied to `digit1`. -/
def trimDigit1 (s : List Char) : PRes (List Char) :=
  match digit1 (space0 s) with
  | Except.error e => Except.error e
  | Except.ok (rest, ds) => Except.ok (space0 rest, ds)

/-- Numeric value of a digit run. -/
def digitsToNat (ds : List Char) : Nat :=
  ds.foldl (fun acc c => acc * 10 + (c.toNat - 48)) 0

/-- Value of `"<ip>.<fp>"`, the decimal literal grammar of
`parse_decimal`. -/
def ratOfDecimal (ip fp : List Char) : ℚ :=
  (digitsToNat ip : ℚ) + (digitsToNat fp : ℚ) / (10 : ℚ) ^ fp.length

/-- The f64 value of `std::f64::consts::E`, exactly. -/
def eF64 : ℚ := 6121026514868073 / 2251799813685248

/-- The f64 value of `std::f64::consts::PI`, exactly. -/
def piF64 : ℚ := 884279719003555 / 281474976710656

/-- Recognized constants (`match_const`): `e` and `pi`. -/
def matchConst (name : String) : Option Expr :=
  if name = "e" then some (Expr.ENum (UnitVal.scalar eF64))
  else if name = "pi" then some (Expr.ENum (UnitVal.scalar piF64))
  else none

/-- Recognized unit symbols (`match_unit` / `TryFrom<&str> for UnitVal`):
a valid symbol becomes a dimensioned literal of magnitude one. -/
def matchUnit (name : String) : Option Expr :=
  if UnitVal.isValidUnit name then
    match UnitVal.newIdentityUnits name with
    | Except.ok v => some (Expr.ENum v)
    | Except.error _ => none
  else none

/-- Name resolution (`parse_evar`): constant, then unit, then plain
variable. -/
def parseEvar (name : String) : Expr :=
  match matchConst name with
  | some e => e
  | none =>
      match matchUnit name with
      | some e => e
      | none => Expr.EVar name

/-- Decimal literal (`parse_decimal`: `digit1 '.' digit1`, no
surrounding-space handling). -/
def parseDecimalP (s : List Char) : PRes Expr :=
  match digit1 s with
  | Except.error e => Except.error e
  | Except.ok (s1, ip) =>
    match charP '.' s1 with
    | Except.error e => Except.error e
    | Except.ok (s2, _) =>
      match digit1 s2 with
      | Except.error e => Except.error e
      | Except.ok (s3, fp) => Except.ok (s3, Expr.ENum (UnitVal.scalar (ratOfDecimal ip fp)))

/-- Numeric literal (`parse_number`): decimal, else space-trimmed
integer. -/
def parseNumber (s : List Char) : PRes Expr :=
  orElseSoft (parseDecimalP s) (fun _ =>
    match trimDigit1 s with
    | Except.error e => Except.error e
    | Except.ok (s1, ds) => Except.ok (s1, Expr.ENum (UnitVal.scalar (digitsToNat ds : ℚ))))

/-- Name use (`parse_var_use`). -/
def parseVarUse (s : List Char) : PRes Expr :=
  match trimStartAlpha s with
  | Except.error e => Except.error e
  | Except.ok (s1, name) => Except.ok (s1, parseEvar (String.mk name))

/-- Closing parenthesis alternative (`tag ")"` / `tag "\right)"`). -/
def closeParen (s : List Char) : PRes (List Char) :=
  orElseSoft (tagP ")" s) (fun _ => tagP "\\right)" s)

/-- Opening parenthesis alternative (`tag "("` / `tag "\left("`). -/
def openParen (s : List Char) : PRes (List Char) :=
  orElseSoft (tagP "(" s) (fun _ => tagP "\\left(" s)

/-- Modelled from the spec: `LatexExpr::set_script_param`, called by
`parse_latex` but absent from the snapshot's `types.rs`.  Spec §3: each
of superscript and subscript is settable at most once; a second
assignment errors.  Applied here as a fold over the collected
script/value pairs (`'^'` = superscript, `'_'` = subscript). -/
def setScripts : List (Char × Expr) → Option Expr → Option Expr →
    Except String (Option Expr × Option Expr)
  | [], sup, sub => Except.ok (sup, sub)
  | (c, e) :: rest, sup, sub =>
      if c = '^' then
        match sup with
        | some _ => Except.error "Superscript already set"
        | none => setScripts rest (some e) sub
      else
        match sub with
        | some _ => Except.error "Subscript already set"
        | none => setScripts rest sup (some e)

/-- Bare parameter names of a function definition's left side: each parsed
parameter must be a plain `EVar`. -/
def paramsToNames : List Expr → Option (List String)
  | [] => some []
  | Expr.EVar n :: rest => (paramsToNames rest).map (fun l => n :: l)
  | _ => none

mutual

/-- Top-level alternative (`parse_math_expr_or_def`): definition, else
expression. -/
def parseMathExprOrDef : Nat → List Char → PRes Expr
  | 0, _ => Except.error (PFail.soft "fuel")
  | fuel + 1, s => orElseSoft (parseDef fuel s) (fun _ => parseMathExpr fuel s)

/-- Definition parser (`parse_def`): split at the first `=`, reject a
left side containing a brace (it is inside a LaTeX command), commit to the
definition on a valid leading name, then parse the right side and decide
variable vs. function definition by a parenthesis on the left side. -/
def parseDef : Nat → List Char → PRes Expr
  | 0, _ => Except.error (PFail.soft "fuel")
  | fuel + 1, s =>
    match takeUntil "=" s with
    | Except.error e => Except.error e
    | Except.ok (rhs, lhs) =>
      if lhs.contains '\x7b' then
        Except.error (PFail.soft "Matched definition, but it is most likely within a latex command")
      else
        match trimStartAlpha lhs with
        | Except.error _ =>
            Except.error (PFail.hard "Variable name must start with an alphabetic character")
        | Except.ok (lhsRest, varName) =>
          match charP '=' rhs with
          | Except.error e => Except.error e
          | Except.ok (rhs2, _) =>
            let rhs3 := space0 rhs2
            match parseMathExpr fuel rhs3 with
            | Except.error (PFail.soft m) =>
                Except.error (PFail.soft ("In RHS of definition: " ++ m))
            | Except.error (PFail.hard m) => Except.error (PFail.hard m)
            | Except.ok (rest, expr) =>
              if lhsRest.contains '(' then
                match parseCallParams fuel lhsRest with
                | Except.error (PFail.hard m) => Except.error (PFail.hard m)
                | Except.error (PFail.soft _) =>
                    Except.error (PFail.hard "Invalid function parameters")
                | Except.ok (_, params) =>
                  match paramsToNames params with
                  | some names => Except.ok (rest, Expr.EDefFunc (String.mk varName) names expr)
                  | none =>
                      Except.error (PFail.hard "Unexpected expression in function definition")
              else Except.ok (rest, Expr.EDefVar (String.mk varName) expr)

/-- Expression level (`parse_math_expr`): terms joined by `+`/`-`,
left-associated by `map_ops`. -/
def parseMathExpr : Nat → List Char → PRes Expr
  | 0, _ => Except.error (PFail.soft "fuel")
  | fuel + 1, s =>
    match parseTerm fuel s with
    | Except.error e => Except.error e
    | Except.ok (s1, t) => parseAddRest fuel s1 t

/-- The `many0((+|-) term)` tail of an expression. -/
def parseAddRest : Nat → List Char → Expr → PRes Expr
  | 0, s, acc => Except.ok (s, acc)
  | fuel + 1, s, acc =>
    match tagP "+" s with
    | Except.ok (s1, _) =>
        (match parseTerm fuel s1 with
         | Except.ok (s2, t) => parseAddRest fuel s2 (Expr.EAdd acc t)
         | Except.error (PFail.hard m) => Except.error (PFail.hard m)
         | Except.error (PFail.soft _) => Except.ok (s, acc))
    | Except.error _ =>
      match tagP "-" s with
      | Except.ok (s1, _) =>
          (match parseTerm fuel s1 with
           | Except.ok (s2, t) => parseAddRest fuel s2 (Expr.ESub acc t)
           | Except.error (PFail.hard m) => Except.error (PFail.hard m)
           | Except.error (PFail.soft _) => Except.ok (s, acc))
      | Except.error _ => Except.ok (s, acc)

/-- Term level (`parse_term`): power-factors joined by `/`, `*`, or
`\cdot`. -/
def parseTerm : Nat → List Char → PRes Expr
  | 0, _ => Except.error (PFail.soft "fuel")
  | fuel + 1, s =>
    match parseTermNoFractions fuel s with
    | Except.error e => Except.error e
    | Except.ok (s1, t) => parseMulRest fuel s1 t

/-- The `many0((/|*|\cdot) factor)` tail of a term. -/
def parseMulRest : Nat → List Char → Expr → PRes Expr
  | 0, s, acc => Except.ok (s, acc)
  | fuel + 1, s, acc =>
    match tagP "/" s with
    | Except.ok (s1, _) =>
        (match parseTermNoFractions fuel s1 with
         | Except.ok (s2, t) => parseMulRest fuel s2 (Expr.EDiv acc t)
         | Except.error (PFail.hard m) => Except.error (PFail.hard m)
         | Except.error (PFail.soft _) => Except.ok (s, acc))
    | Except.error _ =>
      match tagP "*" s with
      | Except.ok (s1, _) =>
          (match parseTermNoFractions fuel s1 with
           | Except.ok (s2, t) => parseMulRest fuel s2 (Expr.EMul acc t)
           | Except.error (PFail.hard m) => Except.error (PFail.hard m)
           | Except.error (PFail.soft _) => Except.ok (s, acc))
      | Except.error _ =>
        match tagP "\\cdot" s with
        | Except.ok (s1, _) =>
            (match parseTermNoFractions fuel s1 with
             | Except.ok (s2, t) => parseMulRest fuel s2 (Expr.EMul acc t)
             | Except.error (PFail.hard m) => Except.error (PFail.hard m)
             | Except.error (PFail.soft _) => Except.ok (s, acc))
        | Except.error _ => Except.ok (s, acc)

/-- Power level (`parse_term_no_fractions`): components joined by `^`
(left-associated, as `map_ops` folds). -/
def parseTermNoFractions : Nat → List Char → PRes Expr
  | 0, _ => Except.error (PFail.soft "fuel")
  | fuel + 1, s =>
    match parseComponent fuel s with
    | Except.error e => Except.error e
    | Except.ok (s1, t) => parsePowRest fuel s1 t

/-- The `many0(^ factor)` tail of a power chain. -/
def parsePowRest : Nat → List Char → Expr → PRes Expr
  | 0, s, acc => Except.ok (s, acc)
  | fuel + 1, s, acc =>
    match tagP "^" s with
    | Except.ok (s1, _) =>
        (match parseTermNoFractions fuel s1 with
         | Except.ok (s2, t) => parsePowRest fuel s2 (Expr.EExp acc t)
         | Except.error (PFail.hard m) => Except.error (PFail.hard m)
         | Except.error (PFail.soft _) => Except.ok (s, acc))
    | Except.error _ => Except.ok (s, acc)

/-- Component level (`parse_component`): leading spaces, then the first of
parenthesized expression, implicit multiplication, function call, LaTeX
command, number, name use. -/
def parseComponent : Nat → List Char → PRes Expr
  | 0, _ => Except.error (PFail.soft "fuel")
  | fuel + 1, s0 =>
    let s := space0 s0
    orElseSoft (parseParens fuel s) (fun _ =>
    orElseSoft (parseImplicitMultiply fuel s) (fun _ =>
    orElseSoft (parseFuncCall fuel s) (fun _ =>
    orElseSoft (parseLatex fuel s) (fun _ =>
    orElseSoft (parseNumber s) (fun _ =>
    parseVarUse s)))))

/-- Parenthesized expression (`parse_parens`), allowing LaTeX
`\left(`/`\right)` delimiters, with surrounding spaces trimmed. -/
def parseParens : Nat → List Char → PRes Expr
  | 0, _ => Except.error (PFail.soft "fuel")
  | fuel + 1, s0 =>
    let s := space0 s0
    match openParen s with
    | Except.error e => Except.error e
    | Except.ok (s1, _) =>
      match parseMathExpr fuel s1 with
      | Except.error e => Except.error e
      | Except.ok (s2, e) =>
        match closeParen s2 with
        | Except.error e2 => Except.error e2
        | Except.ok (s3, _) => Except.ok (space0 s3, e)

/-- Implicit multiplication (`parse_implicit_multiply`): a number directly
followed by a power-factor. -/
def parseImplicitMultiply : Nat → List Char → PRes Expr
  | 0, _ => Except.error (PFail.soft "fuel")
  | fuel + 1, s =>
    match parseNumber s with
    | Except.error e => Except.error e
    | Except.ok (s1, n) =>
      match parseTermNoFractions fuel s1 with
      | Except.error e => Except.error e
      | Except.ok (s2, t) => Except.ok (s2, Expr.EMul n t)

/-- Function call (`parse_func_call`): name then parenthesized argument
list. -/
def parseFuncCall : Nat → List Char → PRes Expr
  | 0, _ => Except.error (PFail.soft "fuel")
  | fuel + 1, s =>
    match startAlpha s with
    | Except.error e => Except.error e
    | Except.ok (s1, name) =>
      match parseCallParams fuel s1 with
      | Except.error e => Except.error e
      | Except.ok (s2, params) => Except.ok (s2, Expr.EFunc (String.mk name) params)

/-- Argument list (`parse_call_params`): `separated_list0(',',
parse_math_expr)` between parentheses. -/
def parseCallParams : Nat → List Char → PRes (List Expr)
  | 0, _ => Except.error (PFail.soft "fuel")
  | fuel + 1, s =>
    match openParen s with
    | Except.error e => Except.error e
    | Except.ok (s1, _) =>
      match parseMathExpr fuel s1 with
      | Except.error (PFail.hard m) => Except.error (PFail.hard m)
      | Except.error (PFail.soft _) =>
          (match closeParen s1 with
           | Except.error e => Except.error e
           | Except.ok (s2, _) => Except.ok (s2, []))
      | Except.ok (s2, e) =>
        match parseCommaListRest fuel s2 [e] with
        | Except.error e2 => Except.error e2
        | Except.ok (s3, items) =>
          match closeParen s3 with
          | Except.error e2 => Except.error e2
          | Except.ok (s4, _) => Except.ok (s4, items)

/-- The separator/element loop of `separated_list0`. -/
def parseCommaListRest : Nat → List Char → List Expr → PRes (List Expr)
  | 0, s, acc => Except.ok (s, acc.reverse)
  | fuel + 1, s, acc =>
    match charP ',' s with
    | Except.error _ => Except.ok (s, acc.reverse)
    | Except.ok (s1, _) =>
      match parseMathExpr fuel s1 with
      | Except.error (PFail.hard m) => Except.error (PFail.hard m)
      | Except.error (PFail.soft _) => Except.ok (s, acc.reverse)
      | Except.ok (s2, e) => parseCommaListRest fuel s2 (e :: acc)

/-- LaTeX command (`parse_latex`): backslash, name, any number of
`^`/`_` scripts, then either a parenthesized argument list or brace
groups; with no parameters at all the next term is taken greedily, and a
command with neither scripts nor parameters is rejected. -/
def parseLatex : Nat → List Char → PRes Expr
  | 0, _ => Except.error (PFail.soft "fuel")
  | fuel + 1, s =>
    match charP '\\' s with
    | Except.error e => Except.error e
    | Except.ok (s1, _) =>
      match alpha1 s1 with
      | Except.error e => Except.error e
      | Except.ok (s2, fname) =>
        match parseScripts fuel s2 with
        | Except.error e => Except.error e
        | Except.ok (s3, scripts) =>
          match orElseSoft (parseCallParams fuel s3) (fun _ => parseBraceParams fuel s3) with
          | Except.error e => Except.error e
          | Except.ok (s4, params0) =>
            if scripts.length = 0 ∧ params0.length = 0 then
              Except.error (PFail.soft "No parameters given to latex function, ignoring")
            else
              match
                (if params0.length = 0 then
                  match parseTerm fuel s4 with
                  | Except.error e => Except.error e
                  | Except.ok (s5, p) => Except.ok (s5, [p])
                else (Except.ok (s4, params0) : PRes (List Expr))) with
              | Except.error e => Except.error e
              | Except.ok (s5, params) =>
                match setScripts scripts none none with
                | Except.ok (sup, sub) =>
                    Except.ok (s5, Expr.ETex (String.mk fname) sup sub params)
                | Except.error m => Except.error (PFail.hard m)

/-- The `many0` of `^`/`_` script parsers in `parse_latex`: a `^` script
holds an expression, a `_` script may hold a definition. -/
def parseScripts : Nat → List Char → PRes (List (Char × Expr))
  | 0, s => Except.ok (s, [])
  | fuel + 1, s =>
    match charP '^' s with
    | Except.ok (s1, _) =>
        (match parseLatexParamExpr fuel s1 with
         | Except.ok (s2, e) =>
             (match parseScripts fuel s2 with
              | Except.error e2 => Except.error e2
              | Except.ok (s3, rest) => Except.ok (s3, ('^', e) :: rest))
         | Except.error (PFail.hard m) => Except.error (PFail.hard m)
         | Except.error (PFail.soft _) => Except.ok (s, []))
    | Except.error _ =>
      match charP '_' s with
      | Except.ok (s1, _) =>
          (match parseLatexParamOrDef fuel s1 with
           | Except.ok (s2, e) =>
               (match parseScripts fuel s2 with
                | Except.error e2 => Except.error e2
                | Except.ok (s3, rest) => Except.ok (s3, ('_', e) :: rest))
           | Except.error (PFail.hard m) => Except.error (PFail.hard m)
           | Except.error (PFail.soft _) => Except.ok (s, []))
      | Except.error _ => Except.ok (s, [])

/-- The `many0` of `{...}` parameter groups in `parse_latex`. -/
def parseBraceParams : Nat → List Char → PRes (List Expr)
  | 0, s => Except.ok (s, [])
  | fuel + 1, s =>
    match tagP "\x7b" s with
    | Except.error _ => Except.ok (s, [])
    | Except.ok (s1, _) =>
      match parseMathExpr fuel s1 with
      | Except.error (PFail.hard m) => Except.error (PFail.hard m)
      | Except.error (PFail.soft _) => Except.ok (s, [])
      | Except.ok (s2, e) =>
        match tagP "\x7d" s2 with
        | Except.error _ => Except.ok (s, [])
        | Except.ok (s3, _) =>
          match parseBraceParams fuel s3 with
          | Except.error e2 => Except.error e2
          | Except.ok (s4, rest) => Except.ok (s4, e :: rest)

/-- Script payload in `^` position (`parse_latex_param(parse_math_expr)`):
a brace-delimited expression, else a single bare digit or letter. -/
def parseLatexParamExpr : Nat → List Char → PRes Expr
  | 0, _ => Except.error (PFail.soft "fuel")
  | fuel + 1, s =>
    match
      (match tagP "\x7b" s with
       | Except.error e => Except.error e
       | Except.ok (s1, _) =>
         match parseMathExpr fuel s1 with
         | Except.error e => Except.error e
         | Except.ok (s2, e) =>
           match tagP "\x7d" s2 with
           | Except.error e2 => Except.error e2
           | Except.ok (s3, _) => (Except.ok (s3, e) : PRes Expr)) with
    | Except.ok r => Except.ok r
    | Except.error _ =>
      match s with
      | [] => Except.error (PFail.soft "take")
      | c :: rest =>
          if c.isDigit then
            Except.ok (rest, Expr.ENum (UnitVal.scalar ((c.toNat - 48 : Nat) : ℚ)))
          else if c.isAlpha then Except.ok (rest, parseEvar (String.singleton c))
          else Except.error (PFail.soft "Invalid character in latex script")

/-- Script payload in `_` position
(`parse_latex_param(parse_math_expr_or_def)`). -/
def parseLatexParamOrDef : Nat → List Char → PRes Expr
  | 0, _ => Except.error (PFail.soft "fuel")
  | fuel + 1, s =>
    match
      (match tagP "\x7b" s with
       | Except.error e => Except.error e
       | Except.ok (s1, _) =>
         match parseMathExprOrDef fuel s1 with
         | Except.error e => Except.error e
         | Except.ok (s2, e) =>
           match tagP "\x7d" s2 with
           | Except.error e2 => Except.error e2
           | Except.ok (s3, _) => (Except.ok (s3, e) : PRes Expr)) with
    | Except.ok r => Except.ok r
    | Except.error _ =>
      match s with
      | [] => Except.error (PFail.soft "take")
      | c :: rest =>
          if c.isDigit then
            Except.ok (rest, Expr.ENum (UnitVal.scalar ((c.toNat - 48 : Nat) : ℚ)))
          else if c.isAlpha then Except.ok (rest, parseEvar (String.singleton c))
          else Except.error (PFail.soft "Invalid character in latex script")

end

/-- Whole-line parser (`parse`, `src-tauri/src/parser.rs` lines 17-31):
unconsumed trailing input is a failure. -/
def parse (fuel : Nat) (input : String) : Except Error Expr :=
  match parseMathExprOrDef fuel input.data with
  | Except.ok (rest, e) =>
      if rest.isEmpty then Except.ok e
      else Except.error (Error.parseError "Failed to parse")
  | Except.error (PFail.soft m) => Except.error (Error.parseError m)
  | Except.error (PFail.hard m) => Except.error (Error.parseError m)

/-!  Theorems settling the claims. -/

/-- C10: for every function name, every context and every `defining`
marker, evaluating a function-call expression with an empty argument list
panics: `apply_default_function` unwraps the first argument before
checking whether the name is a built-in or user function (fuel `+ 2` only
feeds the two call layers before the unconditional `unwrap`). -/
theorem empty_args_call_panics (ops : FloatOps) (fuel : Nat) (name : String)
    (ctx : Context) (defining : Option String) :
    evalExpr ops (fuel + 2) (Expr.EFunc name []) ctx defining
      = Except.error (RErr.panic "called Option unwrap on a None value") := rfl

/-- C2 counterexample: a well-formed `prod` LaTeX expression (one body
parameter, subscript binding `i` to lower bound 1, superscript 3) whose
product the claim says is returned; evaluation instead fails with an
unrecognized-command error. -/
theorem prod_concrete_unrecognized_cx :
    (evalMutContext zeroOps 20
        (Expr.ETex "prod" (some (Expr.ENum (UnitVal.scalar 3)))
          (some (Expr.EDefVar "i" (Expr.ENum (UnitVal.scalar 1))))
          [Expr.EVar "i"])
        Context.new).1
      = Except.error (RErr.err (Error.evalError
          ("Unrecognized latex expression " ++ sq "prod"))) := rfl

/-- C2 amended: `prod` is not implemented.  Every LaTeX expression named
`prod` — whatever its scripts, parameters, context and defining marker —
evaluates to the unrecognized-latex-expression error (`eval_latex` has
arms only for `frac`, `sqrt` and `sum`). -/
theorem prod_unrecognized (ops : FloatOps) (fuel : Nat) (sup sub : Option Expr)
    (params : List Expr) (ctx : Context) (defining : Option String) :
    evalLatex ops (fuel + 1) "prod" sup sub params ctx defining
      = Except.error (RErr.err (Error.evalError
          ("Unrecognized latex expression " ++ sq "prod"))) := rfl

/-- C3: both script orders of the summation line parse to the identical
tree, but evaluating it in an empty context does not return 6 — it fails
with "Summation bounds must be integers", because the `UnitVal::fract`
the evaluator uses (`src-tauri/src/units.rs` lines 156-159) computes the
reciprocal `1.0 / x` instead of the fractional part, so the integer
bounds 3 and 1 yield the nonzero values `1/3` and `1`. -/
theorem sum_line_parse_and_eval_bug (ops : FloatOps) :
    parse 60 "\\sum^{3}_{i=1}{i}"
        = Except.ok (Expr.ETex "sum" (some (Expr.ENum (UnitVal.scalar 3)))
            (some (Expr.EDefVar "i" (Expr.ENum (UnitVal.scalar 1)))) [Expr.EVar "i"])
      ∧ parse 60 "\\sum_{i=1}^{3}{i}"
        = Except.ok (Expr.ETex "sum" (some (Expr.ENum (UnitVal.scalar 3)))
            (some (Expr.EDefVar "i" (Expr.ENum (UnitVal.scalar 1)))) [Expr.EVar "i"])
      ∧ evalMutContext ops 30
            (Expr.ETex "sum" (some (Expr.ENum (UnitVal.scalar 3)))
              (some (Expr.EDefVar "i" (Expr.ENum (UnitVal.scalar 1)))) [Expr.EVar "i"])
            Context.new
        = (Except.error (RErr.err (Error.evalError "Summation bounds must be integers")),
           Context.new) :=
  ⟨rfl, rfl, by with_unfolding_all rfl⟩

/-- C4 counterexample: `mol` is a registered unit name, but the symbol
parser never reaches the bare lookup — `m` is a prefix character, so the
prefix+base path runs first and fails on the unregistered base `ol`. -/
theorem from_unit_str_mol_fails_cx :
    UnitVal.fromUnitStr "mol" = Except.error (RErr.err (Error.defNotFound "ol")) := rfl

/-- C4 amended: `kg` is special-cased as the unqualified kilogram; a
registered symbol is read bare only when it is a single character or does
not start with a prefix character; a longer symbol starting with a prefix
character always takes the prefix+base decomposition, so registered names
like `mol` and `psi` fail (the source's own TODO records this). -/
theorem from_unit_str_amended (unit : String) (u : Unit)
    (hne : unit ≠ "kg") (hnemp : unit ≠ "")
    (hbare : lookupL unitMap unit = some u)
    (hpre : unit.length ≤ 1 ∨ (lookupCharL prefixMap unit.front).isNone) :
    UnitVal.fromUnitStr "kg" = Except.ok (0, ⟨"kg", 1, Quantity.mass⟩)
    ∧ UnitVal.fromUnitStr unit = Except.ok (0, u)
    ∧ UnitVal.fromUnitStr "psi" = Except.error (RErr.err (Error.defNotFound "si")) := by
  refine ⟨rfl, ?_, rfl⟩
  have hcond : ¬ (unit.length > 1 ∧ (lookupCharL prefixMap unit.front).isSome = true) := by
    rcases hpre with h | h
    · exact fun hc => absurd hc.1 (by omega)
    · exact fun hc => by
        rcases hc with ⟨_, hs⟩
        rw [Option.isNone_iff_eq_none] at h
        rw [h] at hs
        exact Bool.noConfusion hs
  rw [UnitVal.fromUnitStr, if_neg hnemp, if_neg hne, if_neg hcond, hbare]

/-- C4 witness instance at the registered single-character symbol `s`. -/
theorem from_unit_str_amended_witness :
    UnitVal.fromUnitStr "s" = Except.ok (0, ⟨"s", 1, Quantity.time⟩) :=
  (from_unit_str_amended "s" ⟨"s", 1, Quantity.time⟩ (by decide) (by decide) rfl
    (Or.inl (by decide))).2.1

/-- C5 counterexample: adding 1 mol and 1 m — quantity vectors differ, so
the claim promises a mismatch error naming both rendered operands; instead
the message construction panics, because rendering a mole quantity fails
(no SI-system unit covers the amount dimension) and `to_string` `unwrap`s
that failure. -/
theorem add_mol_panics_cx :
    UnitVal.add ⟨1, Quantity.amount⟩ ⟨1, Quantity.length⟩
      = Except.error (RErr.panic "called Result unwrap on an Err value") := by
  with_unfolding_all rfl

/-- C5 amended: for operands whose rendering succeeds, mismatched
add/subtract fail with the descriptive error quoting both rendered
operands; multiply/divide always succeed, summing resp. subtracting the
quantity vectors componentwise and combining the SI magnitudes directly;
equal-quantity add/subtract succeed and preserve the quantity vector. -/
theorem unitval_arith_amended (u1 u2 : UnitVal) (s1 s2 : String)
    (h1 : u1.toStringR = Except.ok s1) (h2 : u2.toStringR = Except.ok s2) :
    (u1.quantity ≠ u2.quantity →
      u1.add u2 = Except.error (RErr.err (Error.unitError
          ("Cannot add units with different quantities: " ++ dq s1 ++ " and " ++ dq s2)))
      ∧ u1.sub u2 = Except.error (RErr.err (Error.unitError
          ("Cannot subtract units with different quantities: " ++ dq s1 ++ " and " ++ dq s2))))
    ∧ (u1.quantity = u2.quantity →
      u1.add u2 = Except.ok ⟨u1.value + u2.value, u1.quantity⟩
      ∧ u1.sub u2 = Except.ok ⟨u1.value - u2.value, u1.quantity⟩)
    ∧ u1.mul u2 = ⟨u1.value * u2.value,
        ⟨(u1.quantity.zipPairs u2.quantity).map (fun p => p.1 + p.2)⟩⟩
    ∧ u1.div u2 = ⟨u1.value / u2.value,
        ⟨(u1.quantity.zipPairs u2.quantity).map (fun p => p.1 - p.2)⟩⟩ := by
  refine ⟨fun hne => ⟨?_, ?_⟩, fun heq => ⟨?_, ?_⟩, rfl, rfl⟩
  · rw [UnitVal.add, if_pos hne, h1, h2]
  · rw [UnitVal.sub, if_pos hne, h1, h2]
  · rw [UnitVal.add, if_neg (by simp [heq])]
  · rw [UnitVal.sub, if_neg (by simp [heq])]

/-- C5 witness instance: 1 m and 1 s. -/
theorem unitval_arith_amended_witness :
    UnitVal.add ⟨1, Quantity.length⟩ ⟨1, Quantity.time⟩
      = Except.error (RErr.err (Error.unitError
          ("Cannot add units with different quantities: " ++ dq "1 m" ++ " and " ++ dq "1 s"))) :=
  ((unitval_arith_amended ⟨1, Quantity.length⟩ ⟨1, Quantity.time⟩ "1 m" "1 s"
      (by with_unfolding_all rfl) (by with_unfolding_all rfl)).1 (by decide)).1

/-- C6 counterexample: the variable `a` is already bound, yet redefining it
with the right-hand side `b` (an undefined name) reports "Variable 'b' not
defined", not a duplicate-definition error — the right side is evaluated
before the duplicate check. -/
theorem dup_var_def_rhs_error_cx :
    evalMutContextDef zeroOps 5 (Expr.EDefVar "a" (Expr.EVar "b"))
        ⟨[("a", UnitVal.scalar 1)], []⟩ none
      = (Except.error (RErr.err (Error.evalError
            ("Variable " ++ sq "b" ++ " not defined"))),
         ⟨[("a", UnitVal.scalar 1)], []⟩) := rfl

/-- C6 amended: a variable redefinition whose right-hand side evaluates
successfully fails with the duplicate-definition error and leaves the
context exactly as it was; a function redefinition fails likewise,
unconditionally (its body is stored unevaluated).  When the right-hand
side itself fails, its error is returned instead — the context is still
untouched. -/
theorem duplicate_definition_amended (ops : FloatOps) (fuel : Nat) (ctx : Context)
    (var : String) (rhs : Expr) (v : UnitVal) (name : String) (params : List String)
    (body : Expr) :
    ((lookupL ctx.vars var).isSome →
      evalExpr ops fuel rhs ctx (some var) = Except.ok v →
      evalMutContextDef ops (fuel + 1) (Expr.EDefVar var rhs) ctx none
        = (Except.error (RErr.err (Error.evalError
            ("Variable " ++ sq var ++ " already defined"))), ctx))
    ∧ (∀ er, evalExpr ops fuel rhs ctx (some var) = Except.error er →
      evalMutContextDef ops (fuel + 1) (Expr.EDefVar var rhs) ctx none
        = (Except.error er, ctx))
    ∧ ((lookupL ctx.funcs name).isSome →
      evalMutContextDef ops (fuel + 1) (Expr.EDefFunc name params body) ctx none
        = (Except.error (RErr.err (Error.evalError
            ("Variable " ++ sq name ++ " already defined"))), ctx)) := by
  refine ⟨fun hdup hok => ?_, fun er herr => ?_, fun hdup => ?_⟩
  · simp only [evalMutContextDef, hok, hdup, if_pos]
  · simp only [evalMutContextDef, herr]
  · simp only [evalMutContextDef, hdup, if_pos]

/-- C6 witness instance: both defaulted halves at a one-binding context. -/
theorem duplicate_definition_amended_witness :
    evalMutContextDef zeroOps 2 (Expr.EDefVar "a" (Expr.ENum (UnitVal.scalar 2)))
        ⟨[("a", UnitVal.scalar 1)], []⟩ none
      = (Except.error (RErr.err (Error.evalError
            ("Variable " ++ sq "a" ++ " already defined"))),
         ⟨[("a", UnitVal.scalar 1)], []⟩)
    ∧ evalMutContextDef zeroOps 2 (Expr.EDefFunc "f" ["x"] (Expr.EVar "x"))
        ⟨[], [("f", (["y"], Expr.EVar "y"))]⟩ none
      = (Except.error (RErr.err (Error.evalError
            ("Variable " ++ sq "f" ++ " already defined"))),
         ⟨[], [("f", (["y"], Expr.EVar "y"))]⟩) :=
  ⟨(duplicate_definition_amended zeroOps 1 ⟨[("a", UnitVal.scalar 1)], []⟩ "a"
      (Expr.ENum (UnitVal.scalar 2)) (UnitVal.scalar 2) "f" [] (Expr.EVar "x")).1
      (by decide) rfl,
   (duplicate_definition_amended zeroOps 1 ⟨[], [("f", (["y"], Expr.EVar "y"))]⟩ "a"
      (Expr.ENum (UnitVal.scalar 2)) (UnitVal.scalar 2) "f" ["x"] (Expr.EVar "x")).2.2
      (by decide)⟩

/-- C7 counterexample: `f` is stored with one parameter; the claim says a
zero-argument call must fail with an arity error, but the call panics in
`apply_default_function` before the arity check is reached. -/
theorem arity_zero_args_panics_cx :
    evalExpr zeroOps 5 (Expr.EFunc "f" [])
        ⟨[], [("f", (["x"], Expr.ENum (UnitVal.scalar 1)))]⟩ none
      = Except.error (RErr.panic "called Option unwrap on a None value") := rfl

/-- C7 amended: calling a stored user function with a mismatched argument
count fails with the arity error naming expected and received counts,
provided the built-in unary path returned an ordinary error first (it does
whenever there is at least one argument, the name is not `sin`/`cos`/`tan`,
and evaluating the first argument neither panics nor diverges; with zero
arguments the call panics instead). -/
theorem arity_error_amended (ops : FloatOps) (fuel : Nat) (name : String)
    (inputs : List Expr) (ctx : Context) (params : List String) (body : Expr) (e : Error)
    (hfun : lookupL ctx.funcs name = some (params, body))
    (hlen : params.length ≠ inputs.length)
    (hadf : applyDefaultFunction ops fuel name inputs ctx none = Except.error (RErr.err e)) :
    evalExpr ops (fuel + 1) (Expr.EFunc name inputs) ctx none
      = Except.error (RErr.err (Error.evalError
          ("Function " ++ sq name ++ " expects " ++ toString params.length
            ++ " arguments, but got " ++ toString inputs.length))) := by
  simp only [evalExpr, hadf, hfun]
  rw [if_neg (fun h => Option.noConfusion h), if_pos hlen]

/-- C7 witness instance: `f` stored with two parameters, called with one
argument. -/
theorem arity_error_amended_witness :
    evalExpr zeroOps 3 (Expr.EFunc "f" [Expr.ENum (UnitVal.scalar 5)])
        ⟨[], [("f", (["x", "y"], Expr.ENum (UnitVal.scalar 1)))]⟩ none
      = Except.error (RErr.err (Error.evalError
          ("Function " ++ sq "f" ++ " expects " ++ toString 2
            ++ " arguments, but got " ++ toString 1))) :=
  arity_error_amended zeroOps 2 "f" [Expr.ENum (UnitVal.scalar 5)]
    ⟨[], [("f", (["x", "y"], Expr.ENum (UnitVal.scalar 1)))]⟩ ["x", "y"]
    (Expr.ENum (UnitVal.scalar 1)) (Error.evalError ("Function " ++ sq "f" ++ " not defined"))
    rfl (by decide) rfl

/-- C8 counterexample: the used-unit map of s·m⁻¹ renders as `/ms` — the
negative-exponent unit `m` comes first in the lexicographic walk, so the
positive-exponent unit `s` appears after the slash, not before it (the
claimed grouping would give `s/m`). -/
theorem get_unit_str_slash_order_cx :
    Unit.getUnitStr [("m", -1), ("s", 1)] = "/ms" ∧ ("/ms" : String) ≠ "s/m" :=
  ⟨by with_unfolding_all rfl, by decide⟩

/-- After the slash has been emitted, the walk just concatenates
tokens. -/
theorem getUnitStrGo_seen (l : List (String × Int)) :
    Unit.getUnitStrGo l true = renderSeq l := by
  induction l with
  | nil => rfl
  | cons p rest ih =>
      cases p with
      | mk n pw =>
        simp only [Unit.getUnitStrGo, renderSeq, Bool.true_or, ih]
        rw [if_neg (fun hc => Bool.noConfusion hc.2)]
        simp

/-- A positive-exponent block contributes its tokens and leaves the
slash flag clear. -/
theorem getUnitStrGo_pos (pos : List (String × Int)) (k : List (String × Int))
    (h : ∀ p ∈ pos, 0 < p.2) :
    Unit.getUnitStrGo (pos ++ k) false = renderSeq pos ++ Unit.getUnitStrGo k false := by
  induction pos with
  | nil => simp [renderSeq]
  | cons p rest ih =>
      cases p with
      | mk n pw =>
        have hp : 0 < pw := h (n, pw) (List.mem_cons_self (n, pw) rest)
        have hrest : ∀ q ∈ rest, 0 < q.2 := fun q hq => h q (List.mem_cons_of_mem (n, pw) hq)
        have hnotneg : ¬ pw < 0 := by omega
        simp only [List.cons_append, Unit.getUnitStrGo, renderSeq]
        rw [if_neg (fun hc => hnotneg hc.1)]
        rw [show (decide (pw < 0)) = false by simp [hnotneg]]
        simp only [Bool.false_or, List.append_eq]
        rw [ih hrest]
        simp [String.append_assoc]

/-- A nonempty all-negative block opens with a single slash and then
concatenates tokens. -/
theorem getUnitStrGo_neg (q : String × Int) (rest : List (String × Int))
    (h : ∀ p ∈ q :: rest, p.2 < 0) :
    Unit.getUnitStrGo (q :: rest) false = "/" ++ renderSeq (q :: rest) := by
  cases q with
  | mk n pw =>
    have hq : pw < 0 := h (n, pw) (List.mem_cons_self (n, pw) rest)
    simp only [Unit.getUnitStrGo, renderSeq]
    rw [if_pos ⟨hq, trivial⟩]
    rw [show (decide (pw < 0)) = true by simp [hq]]
    simp only [Bool.false_or]
    rw [getUnitStrGo_seen]
    simp [String.append_assoc]

/-- C8 amended: `get_unit_str` walks the pairs in deterministic
lexicographic order and inserts a single `/` immediately before the first
negative exponent in that order, rendering each unit as `name` or
`name^|k|`.  The claimed positive-then-negative grouping therefore holds
exactly when every positive-exponent name precedes every negative-exponent
name lexicographically. -/
theorem get_unit_str_amended (l pos neg : List (String × Int))
    (hsort : sortPairs l = pos ++ neg)
    (hpos : ∀ p ∈ pos, 0 < p.2) (hneg : ∀ p ∈ neg, p.2 < 0) :
    Unit.getUnitStr l
      = renderSeq pos ++ (if neg.isEmpty then "" else "/" ++ renderSeq neg) := by
  rw [Unit.getUnitStr, hsort, getUnitStrGo_pos pos neg hpos]
  cases neg with
  | nil => rfl
  | cons q rest => rw [getUnitStrGo_neg q rest hneg]; rfl

/-- C8 witness instance: the counterexample map with its positives and
negatives split around the sorted order. -/
theorem get_unit_str_amended_witness :
    Unit.getUnitStr [("s", -1), ("m", 1)]
      = renderSeq [("m", 1)]
        ++ (if ([("s", -1)] : List (String × Int)).isEmpty then ""
            else "/" ++ renderSeq [("s", -1)]) :=
  get_unit_str_amended [("s", -1), ("m", 1)] [("m", 1)] [("s", -1)]
    (by with_unfolding_all decide) (by decide) (by decide)

/-- C9 counterexample: the dimensioned value 5 s·m⁻¹ renders as `5 /ms`,
which re-parses as the division `5 / (1 ms)` — a millisecond, not metres —
so evaluation yields quantity s⁻¹ with magnitude 5000, not the original
quantity. -/
theorem render_roundtrip_fails_cx :
    (UnitVal.mk 5 ⟨[-1, 1, 0, 0, 0, 0, 0]⟩).toStringR = Except.ok "5 /ms"
    ∧ parse 60 "5 /ms"
        = Except.ok (Expr.EDiv (Expr.ENum (UnitVal.scalar 5))
            (Expr.ENum ⟨1 / 1000, Quantity.time⟩))
    ∧ (evalMutContext zeroOps 10
          (Expr.EDiv (Expr.ENum (UnitVal.scalar 5)) (Expr.ENum ⟨1 / 1000, Quantity.time⟩))
          Context.new).1
        = Except.ok (some ⟨5000, ⟨[0, -1, 0, 0, 0, 0, 0]⟩⟩)
    ∧ (⟨[0, -1, 0, 0, 0, 0, 0]⟩ : Quantity) ≠ ⟨[-1, 1, 0, 0, 0, 0, 0]⟩ :=
  ⟨by with_unfolding_all rfl, by with_unfolding_all rfl, by with_unfolding_all rfl,
   by decide⟩

/-- C9 amended: the rendered text of a dimensioned value does not re-parse
to the original value in general (see the s·m⁻¹ counterexample); the
round-trip does hold on decompositions whose rendering is `magnitude unit`
with no prefix, verified here for the family of single-digit magnitudes in
metres: rendering, re-parsing and evaluating reproduces the exact quantity
vector and SI magnitude. -/
theorem render_roundtrip_family (ops : FloatOps) (n : ℕ) (h1 : 1 ≤ n) (h2 : n ≤ 9) :
    (UnitVal.mk (n : ℚ) Quantity.length).toStringR = Except.ok (toString n ++ " m")
    ∧ parse 60 (toString n ++ " m")
        = Except.ok (Expr.EMul (Expr.ENum (UnitVal.scalar (n : ℚ)))
            (Expr.ENum ⟨1, Quantity.length⟩))
    ∧ (evalMutContext ops 10
          (Expr.EMul (Expr.ENum (UnitVal.scalar (n : ℚ))) (Expr.ENum ⟨1, Quantity.length⟩))
          Context.new).1
        = Except.ok (some ⟨(n : ℚ), Quantity.length⟩) := by
  interval_cases n <;>
    exact ⟨by with_unfolding_all rfl, by with_unfolding_all rfl, by with_unfolding_all rfl⟩

/-- C9 witness instance at magnitude 7. -/
theorem render_roundtrip_family_witness :
    (UnitVal.mk ((7 : ℕ) : ℚ) Quantity.length).toStringR
      = Except.ok (toString (7 : ℕ) ++ " m") :=
  (render_roundtrip_family zeroOps 7 (by omega) (by omega)).1

/-- C1 counterexample: raising the dimensioned value 1 m to the exponent
3/2 — neither an integer nor the reciprocal of one.  The claim says the
units are dropped and the plain scalar `1^(3/2)` is returned; the code
instead coerces the dimensioned base itself to a scalar, which errors. -/
theorem powf_other_exponent_errors_cx :
    UnitVal.powf (fun _ _ => 37) ⟨1, Quantity.length⟩ (UnitVal.scalar (3 / 2))
      = Except.error (RErr.err (Error.unitError "Cannot convert unit to scalar: 1 m")) := by
  with_unfolding_all rfl

/-- Scalars coerce to their magnitude. -/
theorem asScalar_scalar (x : ℚ) : (UnitVal.scalar x).asScalar = Except.ok x := rfl

/-- The fractional part of zero is zero. -/
theorem ratFract_zero : ratFract 0 = 0 := by
  simp [ratFract, ratTrunc]

/-- A rational with zero fractional part equals its truncation. -/
theorem ratFract_eq_zero_iff (q : ℚ) : ratFract q = 0 ↔ ((ratTrunc q : Int) : ℚ) = q := by
  constructor
  · intro h
    have : q - ((ratTrunc q : Int) : ℚ) = 0 := h
    linarith
  · intro h
    simp [ratFract, h]

/-- C1 amended, on a dimensioned value `v` (with `s` its successful
rendering) and a unitless exponent `e`:
integer `e` scales every quantity component by `e` (saturated to `i32`)
and raises the magnitude to that integer power;
reciprocal-of-integer `e` (with `|e| < 1`) takes the `1/e`-th root,
dividing every quantity component when all are evenly divisible and
raising the magnitude by the abstract float power at `e`, and failing
with the cannot-take-root `UnitError` otherwise;
any other exponent does NOT drop the units — it fails with the
cannot-convert-to-scalar `UnitError` (the claimed plain scalar
`magnitude^e` is returned only for already-unitless values). -/
theorem powf_dimensioned_branches (fpow : ℚ → ℚ → ℚ) (v : UnitVal) (e : ℚ) (s : String)
    (hdim : v.quantity ≠ Quantity.unitless)
    (hs : v.toStringR = Except.ok s) :
    (ratFract e = 0 →
      UnitVal.powf fpow v (UnitVal.scalar e)
        = Except.ok ⟨v.value ^ toI32 e, v.quantity.map (fun a => a * toI32 e)⟩)
    ∧ (ratFract e ≠ 0 → |e| < 1 → ratFract (1 / e) = 0 →
        (v.quantity.quantity.any (fun m => Int.tmod m (toI32 (1 / e)) ≠ 0) = false →
          UnitVal.powf fpow v (UnitVal.scalar e)
            = Except.ok ⟨fpow v.value e,
                v.quantity.map (fun a => Int.tdiv a (toI32 (1 / e)))⟩)
        ∧ (v.quantity.quantity.any (fun m => Int.tmod m (toI32 (1 / e)) ≠ 0) = true →
          UnitVal.powf fpow v (UnitVal.scalar e)
            = Except.error (RErr.err (Error.unitError
                ("Cannot take the " ++ showRat (1 / e) ++ "th root of " ++ s)))))
    ∧ (ratFract e ≠ 0 → ¬ (|e| < 1 ∧ ratFract (1 / e) = 0) →
        UnitVal.powf fpow v (UnitVal.scalar e)
          = Except.error (RErr.err (Error.unitError
              ("Cannot convert unit to scalar: " ++ s)))) := by
  refine ⟨fun h1 => ?_, fun h1 h2 h3 => ?_, fun h1 hno => ?_⟩
  · simp only [UnitVal.powf, asScalar_scalar]
    rw [if_pos h1]
    rfl
  · have he0 : e ≠ 0 := fun h0 => h1 (by rw [h0]; exact ratFract_zero)
    have hn0 : toI32 (1 / e) ≠ 0 := by
      intro h0
      rw [toI32] at h0
      split at h0
      · omega
      · split at h0
        · omega
        · have htr := (ratFract_eq_zero_iff (1 / e)).mp h3
          rw [h0] at htr
          have h10 : 1 / e = 0 := by simpa using htr.symm
          rcases div_eq_zero_iff.mp h10 with h | h
          · exact one_ne_zero h
          · exact he0 h
    have hroot : UnitVal.powf fpow v (UnitVal.scalar e)
        = UnitVal.root fpow v (UnitVal.scalar (1 / e)) := by
      simp only [UnitVal.powf, asScalar_scalar]
      rw [if_neg h1, if_pos ⟨h2, h3⟩]
    have hfr : ¬ ratFract (1 / e) ≠ 0 := fun hc => hc h3
    constructor
    · intro h4
      rw [hroot]
      simp only [UnitVal.root, asScalar_scalar]
      rw [if_neg hfr, if_neg hn0, Quantity.root,
        if_neg (by intro hc; rw [h4] at hc; exact Bool.noConfusion hc), one_div_one_div]
    · intro h4
      rw [hroot]
      simp only [UnitVal.root, asScalar_scalar]
      rw [if_neg hfr, if_neg hn0, Quantity.root, if_pos h4, hs]
  · simp only [UnitVal.powf, asScalar_scalar]
    rw [if_neg h1, if_neg hno, UnitVal.asScalar, if_pos hdim, hs]

/-- C1 witness instance: 2 m cubed via the integer branch. -/
theorem powf_dimensioned_branches_witness :
    UnitVal.powf (fun _ _ => 0) ⟨2, Quantity.length⟩ (UnitVal.scalar 3)
      = Except.ok ⟨(2 : ℚ) ^ toI32 (3 : ℚ), Quantity.length.map (fun a => a * toI32 (3 : ℚ))⟩ :=
  (powf_dimensioned_branches (fun _ _ => 0) ⟨2, Quantity.length⟩ 3 "2 m" (by decide)
    (by with_unfolding_all rfl)).1 (by with_unfolding_all rfl)

end Calc
